import Mathlib

/-!
Verification of the T&T Slots MAX30102 heart-rate firmware.

Shallow embedding of the C sources:
  * `src/ttslots.X/max30102.c`  (sensor driver and HR/SpO2 estimator)
  * `src/ttslots.X/main.c`      (acquisition ISR on INT1)
  * `src/ttslots.X/i2c.c`       (bus driver, `I2C_readCompleteStream`)
  * `src/hrtest.X/i2c.c`        (bus driver, `i2c_read_register`)

Modelling conventions:
  * C `uint32_t` arithmetic is `Nat` with an explicit `% 2^32` where the source
    can overflow; `uint8_t` counters use `% 256`, ring indices `% 128` / `% 8`
    exactly as in the source.
  * C `float`/`double` arithmetic is modelled exactly over `ℚ`.  The one place
    where IEEE semantics differ from exact rationals that matters to the claims
    is a division whose denominator is zero; there the embedding carries an
    explicit zero-denominator case mirroring IEEE behaviour (see `spo2Calc`).
  * `static` local variables of `max30102_calculate_hr_spo2` are threaded as an
    explicit `HrState`; the result struct written through the `result` pointer
    is threaded in and out so that frame effects (fields left unwritten) are
    visible.
  * Bus hardware is modelled by an oracle: a list of booleans giving the
    outcome of each successive fallible hardware handshake; the functions
    return the sequence of bus events they issue.
-/

/-- One FIFO sample, `max30102_fifo_sample_t` from `max30102.h` (two
`uint32_t` channels). -/
structure max30102_fifo_sample where
  red : Nat
  ir : Nat
deriving DecidableEq

/-- The result struct `max30102_result_t` from `max30102.h`. -/
structure max30102_result where
  heart_rate : Int
  hr_valid : Bool
  spo2 : Int
  spo2_valid : Bool
deriving DecidableEq

/-- The `static` locals of `max30102_calculate_hr_spo2`
(`max30102.c` lines 426-431), threaded explicitly.
`dc_filtered_ir` has 128 entries, `peak_intervals` has 8. -/
structure HrState where
  dc_filtered_ir : List Int
  buffer_pos : Nat
  peaks_detected : Nat
  last_peak_time : Nat
  peak_intervals : List Nat
  peak_interval_idx : Nat
deriving DecidableEq

/-- Reduction modulo 2^32, the wrap of C `uint32_t` arithmetic. -/
def wrap32 (n : Nat) : Nat := n % 4294967296

/-- Conversion of a `uint32_t` value to `int32_t` (C cast). -/
def toInt32 (n : Nat) : Int :=
  let m := n % 4294967296
  if m < 2147483648 then (m : Int) else (m : Int) - 4294967296

/-- Accumulator of the first pass over the batch
(`max30102.c` lines 434-452): running `uint32_t` sums and min/max
of both channels. -/
structure BatchStats where
  ir_sum : Nat
  red_sum : Nat
  ir_min : Nat
  ir_max : Nat
  red_min : Nat
  red_max : Nat
deriving DecidableEq

/-- Body of the first-pass loop (`max30102.c` lines 444-452): add the sample
into the `uint32_t` sums, then update max and min of each channel. -/
def firstPassStep (acc : BatchStats) (s : max30102_fifo_sample) : BatchStats :=
  let acc := { acc with
    ir_sum := wrap32 (acc.ir_sum + s.ir),
    red_sum := wrap32 (acc.red_sum + s.red) }
  let acc := if acc.ir_max < s.ir then { acc with ir_max := s.ir } else acc
  let acc := if s.ir < acc.ir_min then { acc with ir_min := s.ir } else acc
  let acc := if acc.red_max < s.red then { acc with red_max := s.red } else acc
  if s.red < acc.red_min then { acc with red_min := s.red } else acc

/-- First pass over the batch; min registers start at `0xFFFFFFFF`, max at 0
(`max30102.c` lines 434-441). -/
def batchStats (samples : List max30102_fifo_sample) : BatchStats :=
  samples.foldl firstPassStep ⟨0, 0, 4294967295, 0, 4294967295, 0⟩

/-- Average of the ir channel, `ir_avg /= count` (`max30102.c` line 455). -/
def batchIrAvg (samples : List max30102_fifo_sample) : Nat :=
  (batchStats samples).ir_sum / samples.length

/-- Average of the red channel, `red_avg /= count` (`max30102.c` line 456). -/
def batchRedAvg (samples : List max30102_fifo_sample) : Nat :=
  (batchStats samples).red_sum / samples.length

/-- The presence gate (`max30102.c` line 462):
`ir_avg > 5000 && (ir_max - ir_min) > (ir_avg * 0.01)`; the right comparison
is in floating point, modelled exactly over `ℚ`. -/
def fingerPresentB (samples : List max30102_fifo_sample) : Bool :=
  let stats := batchStats samples
  let ir_avg := batchIrAvg samples
  decide (5000 < ir_avg) &&
    decide ((ir_avg : ℚ) * (1 / 100) < ((stats.ir_max - stats.ir_min : Nat) : ℚ))

/-- Sample extraction `max30102_extract_red_sample` (`max30102.c` lines
748-764): assemble the 24-bit big-endian value from the 3 raw bytes, then mask
according to the configured pulse width (enum values 0..3 from
`max30102.h`). -/
def max30102_extract_red_sample (b0 b1 b2 : Nat) (pulse_width : Nat) : Nat :=
  let sample := b0 <<< 16 ||| b1 <<< 8 ||| b2
  if pulse_width = 0 then sample &&& 0x7FFF
  else if pulse_width = 1 then sample &&& 0xFFFF
  else if pulse_width = 2 then sample &&& 0x1FFFF
  else if pulse_width = 3 then sample &&& 0x3FFFF
  else sample

/-- `max30102_extract_ir_sample` (`max30102.c` lines 772-775) delegates to the
red extraction. -/
def max30102_extract_ir_sample (b0 b1 b2 : Nat) (pulse_width : Nat) : Nat :=
  max30102_extract_red_sample b0 b1 b2 pulse_width

/-- FIFO available-sample computation, identical in
`max30102.c` lines 666-670 and `main.c` lines 487-491:
`if (write_ptr >= read_ptr) wp - rp else 32 - rp + wp`. -/
def fifoSamplesAvailable (write_ptr read_ptr : Nat) : Nat :=
  if read_ptr ≤ write_ptr then write_ptr - read_ptr
  else 32 - read_ptr + write_ptr

/-- Body of the DC-removal loop (`max30102.c` lines 494-501): subtract the
batch `ir_avg` (both operands cast to `int32_t`) and store the result into the
circular buffer, advancing the cursor modulo 128.  The accumulator is
`(dc_filtered_ir, buffer_pos)`. -/
def dcRemovalStep (ir_avg : Nat) (acc : List Int × Nat)
    (s : max30102_fifo_sample) : List Int × Nat :=
  let filtered := toInt32 s.ir - toInt32 ir_avg
  (acc.1.set acc.2 filtered, (acc.2 + 1) % 128)

/-- Peak threshold (`max30102.c` lines 505-506): a tenth of the ir
peak-to-peak swing, at least 10. -/
def peakThreshold (ir_max ir_min : Nat) : Int :=
  let pt := toInt32 ((ir_max - ir_min) / 10)
  if pt < 10 then 10 else pt

/-- The part of `HrState` mutated by the peak-detection loop. -/
structure PeakScan where
  last_peak_time : Nat
  peak_intervals : List Nat
  peak_interval_idx : Nat
  peaks_detected : Nat
deriving DecidableEq

/-- Body of the peak-detection loop (`max30102.c` lines 511-540) at iteration
`i` (the loop counter equals the local `current_sample`).  A local maximum
above the threshold is a peak; if a previous peak exists
(`last_peak_time > 0`), the `uint32_t` difference `current_sample -
last_peak_time` is the peak-to-peak interval, stored in the 8-entry ring and
counted (the `uint8_t` counter wraps at 256) only when it lies in
`[27, 150]`. -/
def peakScanStep (buf : List Int) (threshold : Int) (buffer_pos : Nat)
    (st : PeakScan) (i : Nat) : PeakScan :=
  let idx := (buffer_pos + i) % 128
  let prev_idx := (idx + 127) % 128
  let next_idx := (idx + 1) % 128
  if threshold < buf.getD idx 0 ∧ buf.getD prev_idx 0 < buf.getD idx 0 ∧
      buf.getD next_idx 0 < buf.getD idx 0 then
    let st1 :=
      if 0 < st.last_peak_time then
        let interval := (i + 4294967296 - st.last_peak_time % 4294967296) % 4294967296
        if 27 ≤ interval ∧ interval ≤ 150 then
          { st with
            peak_intervals := st.peak_intervals.set st.peak_interval_idx interval,
            peak_interval_idx := (st.peak_interval_idx + 1) % 8,
            peaks_detected := (st.peaks_detected + 1) % 256 }
        else st
      else st
    { st1 with last_peak_time := i }
  else st

/-- The peak-detection loop (`max30102.c` lines 511-540): 124 iterations over
the circular buffer starting at the post-write cursor. -/
def peakScan (buf : List Int) (threshold : Int) (buffer_pos : Nat)
    (st : PeakScan) : PeakScan :=
  (List.range 124).foldl (peakScanStep buf threshold buffer_pos) st

/-- Sum of the stored non-zero intervals (`max30102.c` lines 545-553); the
accumulator is a `uint32_t`. -/
def intervalSum (intervals : List Nat) : Nat :=
  intervals.foldl (fun s x => if 0 < x then wrap32 (s + x) else s) 0

/-- Count of the stored non-zero intervals, `valid_intervals`
(`max30102.c` lines 546-553). -/
def validIntervals (intervals : List Nat) : Nat :=
  (intervals.filter (fun x => 0 < x)).length

/-- The raw BPM (`max30102.c` lines 556-559):
`(int32_t)((60.0f * 100.0f) / ((float)sum / valid_intervals))`, float
arithmetic modelled exactly over `ℚ` (the value is non-negative, so the C
truncation toward zero is the floor).  When the wrapped sum is zero the C
float division yields an out-of-range value; `ℚ` division by zero yields 0,
which is likewise outside the accepted `[40, 220]` window. -/
def rawBPM (intervals : List Nat) : Int :=
  ⌊(6000 : ℚ) / ((intervalSum intervals : ℚ) / (validIntervals intervals : ℚ))⌋

/-- Heart-rate computation from the accumulated peak history
(`max30102.c` lines 543-573): requires at least 3 counted peaks and at least
one non-zero stored interval; the raw BPM must lie in `[40, 220]`, and the
value written to the result is the raw BPM halved.  `none` means `hr_valid`
is set false and `heart_rate` is left unwritten. -/
def computeHR (peaks_detected : Nat) (intervals : List Nat) : Option Int :=
  if 3 ≤ peaks_detected then
    if 0 < validIntervals intervals then
      let heart_rate := rawBPM intervals
      if 40 ≤ heart_rate ∧ heart_rate ≤ 220 then some (heart_rate / 2) else none
    else none
  else none

/-- Write-back of the heart-rate computation into the result struct
(`max30102.c` lines 562-572): on success both `heart_rate` and `hr_valid` are
written, otherwise only `hr_valid := false`. -/
def applyHR (result : max30102_result) (hr : Option Int) : max30102_result :=
  match hr with
  | some v => { result with heart_rate := v, hr_valid := true }
  | none => { result with hr_valid := false }

/-- A record of one evaluation of the ratio division
`(red_ac * ir_avg) / (ir_ac * red_avg)` with the four quantities involved
(`max30102.c` line 474 and line 580). -/
structure RatioDiv where
  red_ac : ℚ
  ir_ac : ℚ
  red_avg : ℚ
  ir_avg : ℚ
deriving DecidableEq

/-- The SpO2 formula (`max30102.c` lines 474-484 and 580-590):
`ratio = (red_ac * ir_avg) / (ir_ac * red_avg)`, `spo2 = 110 - 25 * ratio`,
clamped to `[0, 100]`; the written value is the truncation of the clamped
float (non-negative, hence the floor) and validity requires the clamped value
to lie in `[70, 100]`.  IEEE float semantics of a zero denominator are made
explicit: with a non-zero numerator the ratio is `+inf`, so the clamped spo2
is 0 and invalid; with a zero numerator the ratio is NaN, every comparison is
false and the result is invalid (the value written by the C cast of NaN is
unspecified; the model writes 0, and no claim depends on it). -/
def spo2Calc (red_ac ir_ac red_avg ir_avg : ℚ) : Int × Bool :=
  let num := red_ac * ir_avg
  let den := ir_ac * red_avg
  if den = 0 then (0, false)
  else
    let ratio := num / den
    let spo2 := 110 - 25 * ratio
    let spo2 := if 100 < spo2 then (100 : ℚ) else spo2
    let spo2 := if spo2 < 0 then (0 : ℚ) else spo2
    (⌊spo2⌋, decide (70 ≤ spo2 ∧ spo2 ≤ 100))

/-- The finger-absent SpO2 path (`max30102.c` lines 470-487): guarded only by
both channel averages exceeding 1000; on that path `spo2` and `spo2_valid`
are written, otherwise only `spo2_valid := false`.  Returns the updated
result and the list of ratio divisions evaluated. -/
def spo2Absent (result : max30102_result) (red_ac ir_ac : ℚ)
    (red_avg ir_avg : Nat) : max30102_result × List RatioDiv :=
  if 1000 < red_avg ∧ 1000 < ir_avg then
    let sv := spo2Calc red_ac ir_ac (red_avg : ℚ) (ir_avg : ℚ)
    ({ result with spo2 := sv.1, spo2_valid := sv.2 },
     [⟨red_ac, ir_ac, (red_avg : ℚ), (ir_avg : ℚ)⟩])
  else ({ result with spo2_valid := false }, [])

/-- The finger-present SpO2 path (`max30102.c` lines 576-593): the division is
guarded by `red_ac > 0 && ir_ac > 0 && red_avg > 0 && ir_avg > 0`; when the
guard fails only `spo2_valid := false` is written. -/
def spo2Present (result : max30102_result) (red_ac ir_ac : ℚ)
    (red_avg ir_avg : Nat) : max30102_result × List RatioDiv :=
  if 0 < red_ac ∧ 0 < ir_ac ∧ 0 < red_avg ∧ 0 < ir_avg then
    let sv := spo2Calc red_ac ir_ac (red_avg : ℚ) (ir_avg : ℚ)
    ({ result with spo2 := sv.1, spo2_valid := sv.2 },
     [⟨red_ac, ir_ac, (red_avg : ℚ), (ir_avg : ℚ)⟩])
  else ({ result with spo2_valid := false }, [])

/-- The full output of one call to the estimator: the C return value, the
result struct after the call (fields the call did not write keep the caller's
prior contents), the updated static state, and the ratio divisions
evaluated during the call. -/
structure CalcOut where
  ret : Bool
  res : max30102_result
  state : HrState
  divs : List RatioDiv
deriving DecidableEq

/-- `max30102_calculate_hr_spo2` (`max30102.c` lines 420-596).  The `samples`
array and its `count` are one list; the null-pointer guards of the C signature
have no counterpart for list inputs, so the guard clause reduces to
`count == 0`. -/
def max30102_calculate_hr_spo2 (st : HrState)
    (samples : List max30102_fifo_sample) (result : max30102_result) : CalcOut :=
  if samples.length = 0 then ⟨false, result, st, []⟩
  else
    let stats := batchStats samples
    let ir_avg := batchIrAvg samples
    let red_avg := batchRedAvg samples
    if fingerPresentB samples = false then
      let res1 := { result with hr_valid := false }
      let sp := spo2Absent res1 ((stats.red_max - stats.red_min : Nat) : ℚ)
          ((stats.ir_max - stats.ir_min : Nat) : ℚ) red_avg ir_avg
      ⟨true, sp.1, st, sp.2⟩
    else
      let bp := samples.foldl (dcRemovalStep ir_avg) (st.dc_filtered_ir, st.buffer_pos)
      let threshold := peakThreshold stats.ir_max stats.ir_min
      let ps := peakScan bp.1 threshold bp.2
          ⟨st.last_peak_time, st.peak_intervals, st.peak_interval_idx, st.peaks_detected⟩
      let res1 := applyHR result (computeHR ps.peaks_detected ps.peak_intervals)
      let sp := spo2Present res1 ((stats.red_max - stats.red_min : Nat) : ℚ)
          ((stats.ir_max - stats.ir_min : Nat) : ℚ) red_avg ir_avg
      ⟨true, sp.1,
       ⟨bp.1, bp.2, ps.peaks_detected, ps.last_peak_time,
        ps.peak_intervals, ps.peak_interval_idx⟩,
       sp.2⟩

/-- `MAX30102_INT_A_FULL` = `1 << 7` (`max30102.h` line 41). -/
def MAX30102_INT_A_FULL : Nat := 128

/-- Hardware-side inputs of one acquisition trigger: whether the
interrupt-status read succeeds and its value, whether the FIFO-pointer read
succeeds and the two pointers, and whether the FIFO burst read succeeds
(`max30102_read_fifo_samples` returns 0 on a bus failure). -/
structure IntTrigger where
  status_ok : Bool
  int_status_1 : Nat
  ptrs_ok : Bool
  write_ptr : Nat
  read_ptr : Nat
  fifo_read_ok : Bool
deriving DecidableEq

/-- Observable actions of one acquisition trigger: `fifo_read = some n` when a
FIFO data read of `n` samples is issued, and `estimate = some n` when
`max30102_calculate_hr_spo2` is invoked on `n` samples. -/
structure AcqActions where
  fifo_read : Option Nat
  estimate : Option Nat
deriving DecidableEq

/-- `max30102_process_interrupt` (`max30102.c` lines 647-688), restricted to
its acquisition decisions: on the almost-full flag it computes the available
count, caps it at 16, always issues the FIFO data read for that count, and
invokes the estimator whenever the read returned at least one sample.  There
is no minimum-batch gate on this path. -/
def max30102_process_interrupt (t : IntTrigger) : AcqActions :=
  if t.status_ok = false then ⟨none, none⟩
  else if t.int_status_1 &&& MAX30102_INT_A_FULL ≠ 0 then
    if t.ptrs_ok = false then ⟨none, none⟩
    else
      let avail := fifoSamplesAvailable t.write_ptr t.read_ptr
      let avail := if 16 < avail then 16 else avail
      let samples_read := if t.fifo_read_ok then avail else 0
      ⟨some avail, if 0 < samples_read then some samples_read else none⟩
  else ⟨none, none⟩

/-- The heart-rate acquisition ISR `ISR(INT1_vect)` (`main.c` lines 479-530),
restricted to its acquisition decisions: the available count is capped at
`SAMPLE_COUNT = 10` and both the FIFO data read and the estimation happen only
when the capped count is at least 5. -/
def ISR_INT1_vect (t : IntTrigger) : AcqActions :=
  if t.status_ok = false then ⟨none, none⟩
  else if t.int_status_1 &&& MAX30102_INT_A_FULL ≠ 0 then
    if t.ptrs_ok = false then ⟨none, none⟩
    else
      let sample_count := fifoSamplesAvailable t.write_ptr t.read_ptr
      let sample_count := if 10 < sample_count then 10 else sample_count
      if 5 ≤ sample_count then
        let samples_read := if t.fifo_read_ok then sample_count else 0
        ⟨some sample_count, if 0 < samples_read then some samples_read else none⟩
      else ⟨none, none⟩
  else ⟨none, none⟩

/-- Events a bus transaction can place on the two-wire bus. -/
inductive BusEv where
  | start
  | restart
  | addrW
  | addrR
  | writeByte
  | readByte
  | stop
deriving DecidableEq

/-- Head of the hardware oracle: the outcome of the next fallible handshake.
An exhausted oracle reads as failure. -/
def takeOracle : List Bool → Bool × List Bool
  | [] => (false, [])
  | b :: r => (b, r)

/-- `i2c_read_register` from `src/hrtest.X/i2c.c` lines 351-380, over an
oracle of hardware-handshake outcomes, returning the C boolean result and the
sequence of bus events issued.  Every fallible step after a successful start
calls `i2c_stop()` on its failure path before returning; the final
`i2c_read(false)` consumes a handshake but its outcome is not checked. -/
def i2c_read_register (oracle : List Bool) : Bool × List BusEv :=
  let s1 := takeOracle oracle
  if s1.1 = false then (false, [BusEv.start])
  else
    let s2 := takeOracle s1.2
    if s2.1 = false then (false, [BusEv.start, BusEv.addrW, BusEv.stop])
    else
      let s3 := takeOracle s2.2
      if s3.1 = false then
        (false, [BusEv.start, BusEv.addrW, BusEv.writeByte, BusEv.stop])
      else
        let s4 := takeOracle s3.2
        if s4.1 = false then
          (false, [BusEv.start, BusEv.addrW, BusEv.writeByte, BusEv.restart,
                   BusEv.stop])
        else
          let s5 := takeOracle s4.2
          if s5.1 = false then
            (false, [BusEv.start, BusEv.addrW, BusEv.writeByte, BusEv.restart,
                     BusEv.addrR, BusEv.stop])
          else
            (true, [BusEv.start, BusEv.addrW, BusEv.writeByte, BusEv.restart,
                    BusEv.addrR, BusEv.readByte, BusEv.stop])

/-- `I2C_readCompleteStream` from `src/ttslots.X/i2c.c` lines 303-327, over an
oracle of hardware-handshake outcomes, returning the sequence of bus events
issued.  `I2C_start` and `I2C_writeBegin` check their status but only call the
no-op `ERROR()` on mismatch and fall through; the register-byte
`I2C_write(reg)` failure path executes `ERROR(); return;`, returning to the
caller without a stop condition. -/
def I2C_readCompleteStream (oracle : List Bool) (len : Nat) : List BusEv :=
  let s1 := takeOracle oracle
  let s2 := takeOracle s1.2
  let s3 := takeOracle s2.2
  if s3.1 = false then [BusEv.start, BusEv.addrW, BusEv.writeByte]
  else [BusEv.start, BusEv.addrW, BusEv.writeByte, BusEv.restart, BusEv.addrR]
    ++ List.replicate len BusEv.readByte ++ [BusEv.stop]

/-- Shared 128-entry all-zero circular buffer (the initial contents of the
`static` array `dc_filtered_ir`). -/
def zeroBuf : List Int := List.replicate 128 0

/-- A caller-side result struct with arbitrary prior contents, used to observe
which fields a call writes. -/
def priorR : max30102_result := ⟨123, true, 45, true⟩

/-- Estimator state after three accepted peaks whose stored intervals average
exactly 100 samples. -/
def stAvg100 : HrState := ⟨zeroBuf, 0, 3, 0, [100, 100, 100, 0, 0, 0, 0, 0], 3⟩

/-- Estimator state after three accepted peaks whose stored intervals average
exactly 54 samples. -/
def stAvg54 : HrState := ⟨zeroBuf, 0, 3, 0, [54, 54, 54, 0, 0, 0, 0, 0], 3⟩

/-- A batch passing the presence gate: `ir_avg = 6000 > 5000` and ir swing
`5000 > 6000 * 0.01`; the red channel is constant, and the DC-filtered values
written by this batch stay below the peak threshold, so the peak history is
left unchanged. -/
def presentSamples : List max30102_fifo_sample :=
  [⟨6000, 5000⟩, ⟨6000, 5000⟩, ⟨6000, 5000⟩, ⟨6000, 5000⟩, ⟨6000, 10000⟩]

/-- A batch failing the presence gate (`ir_avg = 3000 ≤ 5000`) whose channel
averages both exceed 1000 and whose ir channel is constant, so `ir_ac = 0`. -/
def absentSamples : List max30102_fifo_sample :=
  [⟨1500, 3000⟩, ⟨2500, 3000⟩]

/-- A single all-zero sample: the presence gate fails and both channel
averages are 0, below the 1000 threshold of the finger-absent SpO2 path. -/
def darkSamples : List max30102_fifo_sample := [⟨0, 0⟩]

lemma spo2Present_frame (r : max30102_result) (a b : ℚ) (c d : Nat) :
    (spo2Present r a b c d).1.hr_valid = r.hr_valid ∧
    (spo2Present r a b c d).1.heart_rate = r.heart_rate := by
  unfold spo2Present
  split <;> simp

lemma spo2Absent_frame (r : max30102_result) (a b : ℚ) (c d : Nat) :
    (spo2Absent r a b c d).1.hr_valid = r.hr_valid ∧
    (spo2Absent r a b c d).1.heart_rate = r.heart_rate := by
  unfold spo2Absent
  split <;> simp

lemma computeHR_eq_some (p : Nat) (l : List Nat) (v : Int)
    (h : computeHR p l = some v) :
    40 ≤ rawBPM l ∧ rawBPM l ≤ 220 ∧ v = rawBPM l / 2 := by
  simp only [computeHR] at h
  split at h
  · split at h
    · split at h
      · rename_i hb
        exact ⟨hb.1, hb.2, (Option.some.injEq _ _ ▸ h).symm⟩
      · exact absurd h (by simp)
    · exact absurd h (by simp)
  · exact absurd h (by simp)

lemma calc_present_proj (st : HrState) (samples : List max30102_fifo_sample)
    (r : max30102_result) (h0 : ¬ samples.length = 0)
    (hf : fingerPresentB samples = true) (ps : PeakScan)
    (hps : peakScan
        (List.foldl (dcRemovalStep (batchIrAvg samples))
          (st.dc_filtered_ir, st.buffer_pos) samples).1
        (peakThreshold (batchStats samples).ir_max (batchStats samples).ir_min)
        (List.foldl (dcRemovalStep (batchIrAvg samples))
          (st.dc_filtered_ir, st.buffer_pos) samples).2
        ⟨st.last_peak_time, st.peak_intervals, st.peak_interval_idx,
         st.peaks_detected⟩ = ps) :
    (max30102_calculate_hr_spo2 st samples r).ret = true ∧
    (max30102_calculate_hr_spo2 st samples r).res.hr_valid =
      (applyHR r (computeHR ps.peaks_detected ps.peak_intervals)).hr_valid ∧
    (max30102_calculate_hr_spo2 st samples r).res.heart_rate =
      (applyHR r (computeHR ps.peaks_detected ps.peak_intervals)).heart_rate := by
  unfold max30102_calculate_hr_spo2
  rw [if_neg h0, if_neg (by simp [hf])]
  simp only []
  rw [hps]
  exact ⟨trivial,
    (spo2Present_frame _ _ _ _ _).1,
    (spo2Present_frame _ _ _ _ _).2⟩

lemma calc_absent_eq (st : HrState) (samples : List max30102_fifo_sample)
    (r : max30102_result) (h0 : ¬ samples.length = 0)
    (hf : fingerPresentB samples = false) :
    max30102_calculate_hr_spo2 st samples r =
      ⟨true,
       (spo2Absent { r with hr_valid := false }
         (((batchStats samples).red_max - (batchStats samples).red_min : Nat) : ℚ)
         (((batchStats samples).ir_max - (batchStats samples).ir_min : Nat) : ℚ)
         (batchRedAvg samples) (batchIrAvg samples)).1,
       st,
       (spo2Absent { r with hr_valid := false }
         (((batchStats samples).red_max - (batchStats samples).red_min : Nat) : ℚ)
         (((batchStats samples).ir_max - (batchStats samples).ir_min : Nat) : ℚ)
         (batchRedAvg samples) (batchIrAvg samples)).2⟩ := by
  unfold max30102_calculate_hr_spo2
  rw [if_neg h0, if_pos hf]

lemma fingerPresent_presentSamples : fingerPresentB presentSamples = true := by
  have h1 : batchStats presentSamples = ⟨30000, 30000, 5000, 10000, 6000, 6000⟩ := by
    decide
  have h2 : batchIrAvg presentSamples = 6000 := by decide
  unfold fingerPresentB
  rw [h1, h2]
  norm_num

lemma fingerPresent_absentSamples : fingerPresentB absentSamples = false := by
  have h2 : batchIrAvg absentSamples = 3000 := by decide
  unfold fingerPresentB
  rw [h2]
  norm_num

lemma fingerPresent_darkSamples : fingerPresentB darkSamples = false := by
  have h2 : batchIrAvg darkSamples = 0 := by decide
  unfold fingerPresentB
  rw [h2]
  norm_num

lemma computeHR_avg100 : computeHR 3 [100, 100, 100, 0, 0, 0, 0, 0] = some 30 := by
  have hs : intervalSum [100, 100, 100, 0, 0, 0, 0, 0] = 300 := by decide
  have hv : validIntervals [100, 100, 100, 0, 0, 0, 0, 0] = 3 := by decide
  have hraw : rawBPM [100, 100, 100, 0, 0, 0, 0, 0] = 60 := by
    unfold rawBPM
    rw [hs, hv]
    norm_num
  unfold computeHR
  rw [hv, hraw]
  norm_num

lemma computeHR_avg54 : computeHR 3 [54, 54, 54, 0, 0, 0, 0, 0] = some 55 := by
  have hs : intervalSum [54, 54, 54, 0, 0, 0, 0, 0] = 162 := by decide
  have hv : validIntervals [54, 54, 54, 0, 0, 0, 0, 0] = 3 := by decide
  have hraw : rawBPM [54, 54, 54, 0, 0, 0, 0, 0] = 111 := by
    unfold rawBPM
    rw [hs, hv]
    norm_num [Int.floor_eq_iff]
  unfold computeHR
  rw [hv, hraw]
  norm_num

lemma run_avg100 :
    (max30102_calculate_hr_spo2 stAvg100 presentSamples priorR).ret = true ∧
    (max30102_calculate_hr_spo2 stAvg100 presentSamples priorR).res.hr_valid = true ∧
    (max30102_calculate_hr_spo2 stAvg100 presentSamples priorR).res.heart_rate = 30 := by
  obtain ⟨h1, h2, h3⟩ := calc_present_proj stAvg100 presentSamples priorR
    (by decide) fingerPresent_presentSamples
    ⟨0, [100, 100, 100, 0, 0, 0, 0, 0], 3, 3⟩ (by decide)
  refine ⟨h1, ?_, ?_⟩
  · rw [h2]
    show (applyHR priorR (computeHR 3 [100, 100, 100, 0, 0, 0, 0, 0])).hr_valid = true
    rw [computeHR_avg100]
    rfl
  · rw [h3]
    show (applyHR priorR (computeHR 3 [100, 100, 100, 0, 0, 0, 0, 0])).heart_rate = 30
    rw [computeHR_avg100]
    rfl

lemma run_avg54 :
    (max30102_calculate_hr_spo2 stAvg54 presentSamples priorR).ret = true ∧
    (max30102_calculate_hr_spo2 stAvg54 presentSamples priorR).res.hr_valid = true ∧
    (max30102_calculate_hr_spo2 stAvg54 presentSamples priorR).res.heart_rate = 55 := by
  obtain ⟨h1, h2, h3⟩ := calc_present_proj stAvg54 presentSamples priorR
    (by decide) fingerPresent_presentSamples
    ⟨0, [54, 54, 54, 0, 0, 0, 0, 0], 3, 3⟩ (by decide)
  refine ⟨h1, ?_, ?_⟩
  · rw [h2]
    show (applyHR priorR (computeHR 3 [54, 54, 54, 0, 0, 0, 0, 0])).hr_valid = true
    rw [computeHR_avg54]
    rfl
  · rw [h3]
    show (applyHR priorR (computeHR 3 [54, 54, 54, 0, 0, 0, 0, 0])).heart_rate = 55
    rw [computeHR_avg54]
    rfl

lemma applyHR_some (r : max30102_result) (o : Option Int)
    (h : (applyHR r o).hr_valid = true) :
    ∃ v, o = some v ∧ (applyHR r o).heart_rate = v := by
  cases o with
  | none => simp [applyHR] at h
  | some v => exact ⟨v, rfl, rfl⟩

lemma calc_present_eq (st : HrState) (samples : List max30102_fifo_sample)
    (r : max30102_result) (h0 : ¬ samples.length = 0)
    (hf : fingerPresentB samples = true) (ps : PeakScan)
    (hps : peakScan
        (List.foldl (dcRemovalStep (batchIrAvg samples))
          (st.dc_filtered_ir, st.buffer_pos) samples).1
        (peakThreshold (batchStats samples).ir_max (batchStats samples).ir_min)
        (List.foldl (dcRemovalStep (batchIrAvg samples))
          (st.dc_filtered_ir, st.buffer_pos) samples).2
        ⟨st.last_peak_time, st.peak_intervals, st.peak_interval_idx,
         st.peaks_detected⟩ = ps) :
    max30102_calculate_hr_spo2 st samples r =
      ⟨true,
       (spo2Present (applyHR r (computeHR ps.peaks_detected ps.peak_intervals))
         (((batchStats samples).red_max - (batchStats samples).red_min : Nat) : ℚ)
         (((batchStats samples).ir_max - (batchStats samples).ir_min : Nat) : ℚ)
         (batchRedAvg samples) (batchIrAvg samples)).1,
       ⟨(List.foldl (dcRemovalStep (batchIrAvg samples))
           (st.dc_filtered_ir, st.buffer_pos) samples).1,
        (List.foldl (dcRemovalStep (batchIrAvg samples))
           (st.dc_filtered_ir, st.buffer_pos) samples).2,
        ps.peaks_detected, ps.last_peak_time, ps.peak_intervals,
        ps.peak_interval_idx⟩,
       (spo2Present (applyHR r (computeHR ps.peaks_detected ps.peak_intervals))
         (((batchStats samples).red_max - (batchStats samples).red_min : Nat) : ℚ)
         (((batchStats samples).ir_max - (batchStats samples).ir_min : Nat) : ℚ)
         (batchRedAvg samples) (batchIrAvg samples)).2⟩ := by
  unfold max30102_calculate_hr_spo2
  rw [if_neg h0, if_neg (by simp [hf])]
  simp only []
  rw [hps]

lemma run_absent_divs :
    (max30102_calculate_hr_spo2 stAvg100 absentSamples priorR).divs =
      [⟨1000, 0, 2000, 3000⟩] := by
  have hstats : batchStats absentSamples = ⟨6000, 4000, 3000, 3000, 1500, 2500⟩ := by
    decide
  have h1 : batchRedAvg absentSamples = 2000 := by decide
  have h2 : batchIrAvg absentSamples = 3000 := by decide
  rw [calc_absent_eq stAvg100 absentSamples priorR (by decide)
    fingerPresent_absentSamples]
  show (spo2Absent _ _ _ _ _).2 = _
  rw [hstats, h1, h2]
  unfold spo2Absent
  rw [if_pos (by norm_num)]
  norm_num

/-- C1 counterexample: an estimator state whose stored non-zero intervals
average exactly 100 samples (three accepted peaks recorded) fed with a
finger-present batch yields `hr_valid = true` with `heart_rate = 30`, not
`hr_valid = false` as the claim states: the `[40, 220]` validation is applied
to the raw BPM (60) before the halving, not to the reported value (30). -/
theorem C1_counterexample :
    (max30102_calculate_hr_spo2 stAvg100 presentSamples priorR).res.hr_valid = true ∧
    (max30102_calculate_hr_spo2 stAvg100 presentSamples priorR).res.heart_rate = 30 :=
  ⟨run_avg100.2.1, run_avg100.2.2⟩

/-- C1 (amended): after at least 3 accepted peaks the raw BPM is
`60*100 / average(non-zero stored intervals)`; `hr_valid` requires the RAW
value, before halving, to lie in `[40, 220]`, and the reported `heart_rate` is
the raw value halved.  In particular intervals averaging exactly 100 samples
give raw BPM 60, `hr_valid = true` and reported `heart_rate = 30`. -/
theorem C1_amended_raw_validation :
    (∀ peaks intervals v, computeHR peaks intervals = some v →
        40 ≤ rawBPM intervals ∧ rawBPM intervals ≤ 220 ∧
        v = rawBPM intervals / 2) ∧
    (∀ peaks intervals, 3 ≤ peaks → 0 < validIntervals intervals →
        intervalSum intervals = 100 * validIntervals intervals →
        computeHR peaks intervals = some 30) := by
  constructor
  · exact fun p l v h => computeHR_eq_some p l v h
  · intro p l hp hv hsum
    have hvq : (validIntervals l : ℚ) ≠ 0 := Nat.cast_ne_zero.mpr (by omega)
    have hraw : rawBPM l = 60 := by
      unfold rawBPM
      rw [hsum]
      push_cast
      rw [mul_div_assoc, div_self hvq, mul_one]
      norm_num
    unfold computeHR
    rw [if_pos hp, if_pos hv]
    simp only [hraw]
    norm_num

/-- C1 witness: the amended claim at the concrete interval ring
`[100, 100, 100, 0, ..., 0]` with 3 counted peaks. -/
theorem C1_witness :
    3 ≤ 3 ∧ 0 < validIntervals [100, 100, 100, 0, 0, 0, 0, 0] ∧
    intervalSum [100, 100, 100, 0, 0, 0, 0, 0] =
      100 * validIntervals [100, 100, 100, 0, 0, 0, 0, 0] ∧
    computeHR 3 [100, 100, 100, 0, 0, 0, 0, 0] = some 30 :=
  ⟨by decide, by decide, by decide,
   C1_amended_raw_validation.2 3 [100, 100, 100, 0, 0, 0, 0, 0]
     (by decide) (by decide) (by decide)⟩

/-- C3 counterexample: an empty batch (`count = 0`) makes
`max30102_calculate_hr_spo2` return `false`, so the estimator does not
succeed on every input batch as the claim states. -/
theorem C3_counterexample :
    (max30102_calculate_hr_spo2 stAvg100 [] priorR).ret = false := by decide

/-- C3 (amended): for every non-empty batch the estimator returns `true`, and
absence of valid data is expressed through the validity flags; an empty batch
(or a null pointer) is rejected with a `false` return by the guard clause. -/
theorem C3_amended_total (st : HrState) (samples : List max30102_fifo_sample)
    (r : max30102_result) (h : samples ≠ []) :
    (max30102_calculate_hr_spo2 st samples r).ret = true := by
  have h0 : ¬ samples.length = 0 := by simpa using h
  by_cases hf : fingerPresentB samples = false
  · rw [calc_absent_eq st samples r h0 hf]
  · obtain ⟨h1, _, _⟩ := calc_present_proj st samples r h0
      (by simpa using hf) _ rfl
    exact h1

/-- C3 witness: the amended claim at a concrete one-sample batch. -/
theorem C3_witness :
    darkSamples ≠ [] ∧
    (max30102_calculate_hr_spo2 stAvg100 darkSamples priorR).ret = true :=
  ⟨by decide, C3_amended_total stAvg100 darkSamples priorR (by decide)⟩

/-- C6: for all write and read pointers in `[0, 31]` the available-sample
count computed by the acquisition code equals `(write_ptr - read_ptr) mod 32`
(integer subtraction, mathematical modulus). -/
theorem C6_fifo_available_mod (write_ptr read_ptr : Nat)
    (h1 : write_ptr < 32) (h2 : read_ptr < 32) :
    (fifoSamplesAvailable write_ptr read_ptr : Int) =
      ((write_ptr : Int) - (read_ptr : Int)) % 32 := by
  unfold fifoSamplesAvailable
  split <;> omega

/-- C6 witness: the wraparound case `write_ptr = 2, read_ptr = 30` gives 4. -/
theorem C6_witness :
    2 < 32 ∧ 30 < 32 ∧
    (fifoSamplesAvailable 2 30 : Int) = ((2 : Int) - (30 : Int)) % 32 ∧
    fifoSamplesAvailable 2 30 = 4 :=
  ⟨by decide, by decide, C6_fifo_available_mod 2 30 (by decide) (by decide),
   by decide⟩

/-- C7: for every 3-byte raw buffer and each documented pulse width the
extraction masks the assembled 24-bit big-endian value to exactly 15, 16, 17
or 18 bits; the ir extraction agrees with the red one, and the raw triple
`0x3FFFF` under pulse width 69us yields `0x7FFF`. -/
theorem C7_extract_masks :
    (∀ b0 b1 b2 : Nat,
        max30102_extract_red_sample b0 b1 b2 0 =
          (b0 <<< 16 ||| b1 <<< 8 ||| b2) % 2 ^ 15 ∧
        max30102_extract_red_sample b0 b1 b2 1 =
          (b0 <<< 16 ||| b1 <<< 8 ||| b2) % 2 ^ 16 ∧
        max30102_extract_red_sample b0 b1 b2 2 =
          (b0 <<< 16 ||| b1 <<< 8 ||| b2) % 2 ^ 17 ∧
        max30102_extract_red_sample b0 b1 b2 3 =
          (b0 <<< 16 ||| b1 <<< 8 ||| b2) % 2 ^ 18 ∧
        ∀ pw, max30102_extract_ir_sample b0 b1 b2 pw =
          max30102_extract_red_sample b0 b1 b2 pw) ∧
    max30102_extract_red_sample 0x03 0xFF 0xFF 0 = 0x7FFF := by
  constructor
  · intro b0 b1 b2
    refine ⟨?_, ?_, ?_, ?_, fun pw => rfl⟩
    · show (b0 <<< 16 ||| b1 <<< 8 ||| b2) &&& 0x7FFF = _
      have h := Nat.and_pow_two_sub_one_eq_mod (b0 <<< 16 ||| b1 <<< 8 ||| b2) 15
      norm_num at h ⊢
      exact h
    · show (b0 <<< 16 ||| b1 <<< 8 ||| b2) &&& 0xFFFF = _
      have h := Nat.and_pow_two_sub_one_eq_mod (b0 <<< 16 ||| b1 <<< 8 ||| b2) 16
      norm_num at h ⊢
      exact h
    · show (b0 <<< 16 ||| b1 <<< 8 ||| b2) &&& 0x1FFFF = _
      have h := Nat.and_pow_two_sub_one_eq_mod (b0 <<< 16 ||| b1 <<< 8 ||| b2) 17
      norm_num at h ⊢
      exact h
    · show (b0 <<< 16 ||| b1 <<< 8 ||| b2) &&& 0x3FFFF = _
      have h := Nat.and_pow_two_sub_one_eq_mod (b0 <<< 16 ||| b1 <<< 8 ||| b2) 18
      norm_num at h ⊢
      exact h
  · decide

/-- C2: evaluation at the failing input.  In `I2C_readCompleteStream`
(`src/ttslots.X/i2c.c`), when the start and the addressing handshakes complete
but the register-byte write is not acknowledged, the function returns having
issued a start and no stop: the bus is left held, contradicting the
stop-on-every-failure-path requirement (which `i2c_read_register` in
`src/hrtest.X/i2c.c` does satisfy). -/
theorem C2_readCompleteStream_no_stop :
    I2C_readCompleteStream [true, true, false] 1 =
      [BusEv.start, BusEv.addrW, BusEv.writeByte] ∧
    BusEv.start ∈ I2C_readCompleteStream [true, true, false] 1 ∧
    BusEv.stop ∉ I2C_readCompleteStream [true, true, false] 1 := by decide

lemma i2c_read_register_stops (rest : List Bool) :
    BusEv.stop ∈ (i2c_read_register (true :: rest)).2 := by
  unfold i2c_read_register
  simp only [takeOracle]
  repeat' split <;> simp_all

/-- C5 counterexample: with the almost-full flag set and 3 samples available
(fewer than 5), `max30102_process_interrupt` still issues a FIFO data read of
3 samples and invokes the estimator on them, contradicting the claim that the
acquisition path performs no FIFO read and no estimation below 5 samples. -/
theorem C5_counterexample :
    fifoSamplesAvailable 3 0 = 3 ∧ (3 : Nat) < 5 ∧
    max30102_process_interrupt ⟨true, 128, true, 3, 0, true⟩ =
      ⟨some 3, some 3⟩ := by decide

/-- C5 (amended): the minimum-batch gate exists only on the `ISR(INT1_vect)`
path: there, fewer than 5 available samples mean no FIFO read and no
estimation, and any issued read is of 5 to 10 samples.
`max30102_process_interrupt` has no such gate: whenever the almost-full flag
is set, the reads succeed and at least one sample is available, it drains and
invokes the estimator. -/
theorem C5_amended_gate (t : IntTrigger) :
    (fifoSamplesAvailable t.write_ptr t.read_ptr < 5 →
        ISR_INT1_vect t = ⟨none, none⟩) ∧
    (∀ c, (ISR_INT1_vect t).fifo_read = some c → 5 ≤ c ∧ c ≤ 10) ∧
    (t.status_ok = true → t.int_status_1 &&& MAX30102_INT_A_FULL ≠ 0 →
        t.ptrs_ok = true → t.fifo_read_ok = true →
        0 < fifoSamplesAvailable t.write_ptr t.read_ptr →
        ∃ c, 0 < c ∧
          (max30102_process_interrupt t).fifo_read = some c ∧
          (max30102_process_interrupt t).estimate = some c) := by
  refine ⟨?_, ?_, ?_⟩
  · intro h
    unfold ISR_INT1_vect
    by_cases h1 : t.status_ok = false
    · rw [if_pos h1]
    · rw [if_neg h1]
      by_cases h2 : t.int_status_1 &&& MAX30102_INT_A_FULL ≠ 0
      · rw [if_pos h2]
        by_cases h3 : t.ptrs_ok = false
        · rw [if_pos h3]
        · rw [if_neg h3]
          simp only []
          have hcap : ¬ (5 ≤ if 10 < fifoSamplesAvailable t.write_ptr t.read_ptr
              then 10 else fifoSamplesAvailable t.write_ptr t.read_ptr) := by
            rw [if_neg (by omega)]
            omega
          rw [if_neg hcap]
      · rw [if_neg h2]
  · intro c hc
    unfold ISR_INT1_vect at hc
    by_cases h1 : t.status_ok = false
    · rw [if_pos h1] at hc
      simp at hc
    · rw [if_neg h1] at hc
      by_cases h2 : t.int_status_1 &&& MAX30102_INT_A_FULL ≠ 0
      · rw [if_pos h2] at hc
        by_cases h3 : t.ptrs_ok = false
        · rw [if_pos h3] at hc
          simp at hc
        · rw [if_neg h3] at hc
          simp only [] at hc
          by_cases h4 : (5 : Nat) ≤ if 10 < fifoSamplesAvailable t.write_ptr t.read_ptr
              then 10 else fifoSamplesAvailable t.write_ptr t.read_ptr
          · rw [if_pos h4] at hc
            simp only [AcqActions.mk.injEq] at hc
            have hce := Option.some.inj hc
            subst hce
            revert h4
            split <;> intro h4 <;> omega
          · rw [if_neg h4] at hc
            simp at hc
      · rw [if_neg h2] at hc
        simp at hc
  · intro h1 h2 h3 h4 h5
    unfold max30102_process_interrupt
    rw [if_neg (by simp [h1]), if_pos h2, if_neg (by simp [h3])]
    simp only []
    rw [if_pos h4]
    refine ⟨if 16 < fifoSamplesAvailable t.write_ptr t.read_ptr then 16
            else fifoSamplesAvailable t.write_ptr t.read_ptr, ?_, rfl, ?_⟩
    · split <;> omega
    · rw [if_pos (by split <;> omega)]

/-- C5 witness: the amended claim at concrete triggers: 3 available samples
make the ISR path do nothing, and 7 available samples make
`max30102_process_interrupt` drain and estimate. -/
theorem C5_witness :
    (fifoSamplesAvailable 3 0 < 5 ∧
      ISR_INT1_vect ⟨true, 128, true, 3, 0, true⟩ = ⟨none, none⟩) ∧
    ∃ c, 0 < c ∧
      (max30102_process_interrupt ⟨true, 128, true, 7, 0, true⟩).fifo_read = some c ∧
      (max30102_process_interrupt ⟨true, 128, true, 7, 0, true⟩).estimate = some c :=
  ⟨⟨by decide,
    (C5_amended_gate ⟨true, 128, true, 3, 0, true⟩).1 (by decide)⟩,
   (C5_amended_gate ⟨true, 128, true, 7, 0, true⟩).2.2 rfl (by decide) rfl rfl
     (by decide)⟩

/-- C8: during peak detection, at a detected peak with a recorded previous
peak, the computed `uint32_t` interval is stored in the 8-entry ring and
counted exactly when it lies in `[27, 150]`; otherwise only the last-peak
time advances. -/
theorem C8_interval_acceptance (buf : List Int) (threshold : Int)
    (buffer_pos : Nat) (st : PeakScan) (i : Nat)
    (hpk : threshold < buf.getD ((buffer_pos + i) % 128) 0 ∧
        buf.getD (((buffer_pos + i) % 128 + 127) % 128) 0 <
          buf.getD ((buffer_pos + i) % 128) 0 ∧
        buf.getD (((buffer_pos + i) % 128 + 1) % 128) 0 <
          buf.getD ((buffer_pos + i) % 128) 0)
    (hlast : 0 < st.last_peak_time) :
    (27 ≤ (i + 4294967296 - st.last_peak_time % 4294967296) % 4294967296 ∧
        (i + 4294967296 - st.last_peak_time % 4294967296) % 4294967296 ≤ 150 →
      peakScanStep buf threshold buffer_pos st i =
        ⟨i,
         st.peak_intervals.set st.peak_interval_idx
           ((i + 4294967296 - st.last_peak_time % 4294967296) % 4294967296),
         (st.peak_interval_idx + 1) % 8,
         (st.peaks_detected + 1) % 256⟩) ∧
    (¬(27 ≤ (i + 4294967296 - st.last_peak_time % 4294967296) % 4294967296 ∧
        (i + 4294967296 - st.last_peak_time % 4294967296) % 4294967296 ≤ 150) →
      peakScanStep buf threshold buffer_pos st i =
        ⟨i, st.peak_intervals, st.peak_interval_idx, st.peaks_detected⟩) := by
  constructor
  · intro h
    unfold peakScanStep
    rw [if_pos hpk, if_pos hlast, if_pos h]
  · intro h
    unfold peakScanStep
    rw [if_pos hpk, if_pos hlast, if_neg h]

/-- C8 witness: concrete boundary intervals at a detected peak: 26 is
rejected, 27 accepted, 150 accepted, 151 rejected. -/
theorem C8_witness :
    peakScanStep (zeroBuf.set 123 100) 10 0 ⟨97, [0, 0, 0, 0, 0, 0, 0, 0], 0, 0⟩ 123 =
      ⟨123, [0, 0, 0, 0, 0, 0, 0, 0], 0, 0⟩ ∧
    peakScanStep (zeroBuf.set 123 100) 10 0 ⟨96, [0, 0, 0, 0, 0, 0, 0, 0], 0, 0⟩ 123 =
      ⟨123, [27, 0, 0, 0, 0, 0, 0, 0], 1, 1⟩ ∧
    peakScanStep (zeroBuf.set 123 100) 10 0
        ⟨4294967269, [0, 0, 0, 0, 0, 0, 0, 0], 0, 0⟩ 123 =
      ⟨123, [150, 0, 0, 0, 0, 0, 0, 0], 1, 1⟩ ∧
    peakScanStep (zeroBuf.set 123 100) 10 0
        ⟨4294967268, [0, 0, 0, 0, 0, 0, 0, 0], 0, 0⟩ 123 =
      ⟨123, [0, 0, 0, 0, 0, 0, 0, 0], 0, 0⟩ := by
  refine ⟨?_, ?_, ?_, ?_⟩
  · exact (C8_interval_acceptance _ _ _ _ _ (by decide) (by decide)).2 (by decide)
  · have h := (C8_interval_acceptance (zeroBuf.set 123 100) 10 0
      ⟨96, [0, 0, 0, 0, 0, 0, 0, 0], 0, 0⟩ 123 (by decide) (by decide)).1 (by decide)
    rw [h]
    decide
  · have h := (C8_interval_acceptance (zeroBuf.set 123 100) 10 0
      ⟨4294967269, [0, 0, 0, 0, 0, 0, 0, 0], 0, 0⟩ 123 (by decide) (by decide)).1
      (by decide)
    rw [h]
    decide
  · exact (C8_interval_acceptance _ _ _ _ _ (by decide) (by decide)).2 (by decide)

/-- C4 counterexample: a finger-absent batch with both channel averages above
1000 but a constant ir channel makes the SpO2 ratio division execute with
`ir_ac = 0`: the recorded division has a zero factor in its denominator, so
the division is not guarded by non-zeroness of all four quantities on that
path. -/
theorem C4_counterexample :
    (max30102_calculate_hr_spo2 stAvg100 absentSamples priorR).divs =
      [⟨1000, 0, 2000, 3000⟩] ∧
    ∃ d ∈ (max30102_calculate_hr_spo2 stAvg100 absentSamples priorR).divs,
      d.ir_ac = 0 :=
  ⟨run_absent_divs,
   ⟨⟨1000, 0, 2000, 3000⟩, by rw [run_absent_divs]; simp, rfl⟩⟩

/-- C4 (amended): every executed ratio division has strictly positive channel
averages; the all-four-nonzero guard holds only in the finger-present branch
(where, when the guard fails, `spo2_valid` is set false); in the finger-absent
branch the division is guarded only by both averages exceeding 1000 and may
execute with a zero AC term. -/
theorem C4_amended_guards (st : HrState) (samples : List max30102_fifo_sample)
    (r : max30102_result) :
    (∀ d ∈ (max30102_calculate_hr_spo2 st samples r).divs,
        (0 < d.red_avg ∧ 0 < d.ir_avg) ∧
        (fingerPresentB samples = true → 0 < d.red_ac ∧ 0 < d.ir_ac)) ∧
    (fingerPresentB samples = true → ¬ samples.length = 0 →
      ¬(0 < (((batchStats samples).red_max - (batchStats samples).red_min : Nat) : ℚ) ∧
        0 < (((batchStats samples).ir_max - (batchStats samples).ir_min : Nat) : ℚ) ∧
        0 < batchRedAvg samples ∧ 0 < batchIrAvg samples) →
      (max30102_calculate_hr_spo2 st samples r).res.spo2_valid = false) := by
  constructor
  · intro d hd
    by_cases h0 : samples.length = 0
    · unfold max30102_calculate_hr_spo2 at hd
      rw [if_pos h0] at hd
      simp at hd
    · by_cases hf : fingerPresentB samples = false
      · rw [calc_absent_eq st samples r h0 hf] at hd
        dsimp only at hd
        unfold spo2Absent at hd
        split at hd
        · rename_i hg
          simp only [List.mem_singleton] at hd
          subst hd
          refine ⟨⟨?_, ?_⟩, fun hft => absurd hft (by simp [hf])⟩
          · show (0 : ℚ) < ((batchRedAvg samples : Nat) : ℚ)
            exact_mod_cast (by omega : 0 < batchRedAvg samples)
          · show (0 : ℚ) < ((batchIrAvg samples : Nat) : ℚ)
            exact_mod_cast (by omega : 0 < batchIrAvg samples)
        · simp at hd
      · have hft : fingerPresentB samples = true := by simpa using hf
        rw [calc_present_eq st samples r h0 hft _ rfl] at hd
        dsimp only at hd
        unfold spo2Present at hd
        split at hd
        · rename_i hg
          simp only [List.mem_singleton] at hd
          subst hd
          refine ⟨⟨?_, ?_⟩, fun _ => ⟨hg.1, hg.2.1⟩⟩
          · show (0 : ℚ) < ((batchRedAvg samples : Nat) : ℚ)
            exact_mod_cast hg.2.2.1
          · show (0 : ℚ) < ((batchIrAvg samples : Nat) : ℚ)
            exact_mod_cast hg.2.2.2
        · simp at hd
  · intro hft h0 hn
    rw [calc_present_eq st samples r h0 hft _ rfl]
    dsimp only
    unfold spo2Present
    rw [if_neg hn]

/-- C4 witness: the amended claim applied to the recorded division of the
finger-absent run: its channel averages are strictly positive even though its
`ir_ac` is zero. -/
theorem C4_witness :
    (⟨1000, 0, 2000, 3000⟩ : RatioDiv) ∈
      (max30102_calculate_hr_spo2 stAvg100 absentSamples priorR).divs ∧
    0 < (⟨1000, 0, 2000, 3000⟩ : RatioDiv).red_avg ∧
    0 < (⟨1000, 0, 2000, 3000⟩ : RatioDiv).ir_avg := by
  have hm : (⟨1000, 0, 2000, 3000⟩ : RatioDiv) ∈
      (max30102_calculate_hr_spo2 stAvg100 absentSamples priorR).divs := by
    rw [run_absent_divs]
    simp
  have h := (C4_amended_guards stAvg100 absentSamples priorR).1 _ hm
  exact ⟨hm, h.1.1, h.1.2⟩

/-- C9: whenever a successful call to `max30102_calculate_hr_spo2` reports
`hr_valid = true`, the reported `heart_rate` is a raw BPM lying in `[40, 220]`
divided by 2, and therefore always lies in `[20, 110]` — never in the upper
part `[111, 220]` of the validated range. -/
theorem C9_reported_range (st : HrState) (samples : List max30102_fifo_sample)
    (r : max30102_result)
    (h1 : (max30102_calculate_hr_spo2 st samples r).ret = true)
    (h2 : (max30102_calculate_hr_spo2 st samples r).res.hr_valid = true) :
    (20 ≤ (max30102_calculate_hr_spo2 st samples r).res.heart_rate ∧
     (max30102_calculate_hr_spo2 st samples r).res.heart_rate ≤ 110) ∧
    ∃ raw : Int, 40 ≤ raw ∧ raw ≤ 220 ∧
      (max30102_calculate_hr_spo2 st samples r).res.heart_rate = raw / 2 := by
  by_cases h0 : samples.length = 0
  · exfalso
    unfold max30102_calculate_hr_spo2 at h1
    rw [if_pos h0] at h1
    simp at h1
  by_cases hf : fingerPresentB samples = false
  · exfalso
    rw [calc_absent_eq st samples r h0 hf] at h2
    dsimp only at h2
    rw [(spo2Absent_frame _ _ _ _ _).1] at h2
    simp at h2
  · have hft : fingerPresentB samples = true := by simpa using hf
    obtain ⟨-, hv, hh⟩ := calc_present_proj st samples r h0 hft _ rfl
    rw [hv] at h2
    obtain ⟨v, hsome, hval⟩ := applyHR_some _ _ h2
    obtain ⟨hb1, hb2, hveq⟩ := computeHR_eq_some _ _ _ hsome
    rw [hh, hval, hveq]
    exact ⟨⟨by omega, by omega⟩, _, hb1, hb2, rfl⟩

/-- C9 witness: a finger-present run over a state with intervals averaging 54
samples reports `hr_valid = true` with `heart_rate = 55 = 111 / 2 ∈ [20, 110]`. -/
theorem C9_witness :
    (20 ≤ (max30102_calculate_hr_spo2 stAvg54 presentSamples priorR).res.heart_rate ∧
     (max30102_calculate_hr_spo2 stAvg54 presentSamples priorR).res.heart_rate ≤ 110) ∧
    ∃ raw : Int, 40 ≤ raw ∧ raw ≤ 220 ∧
      (max30102_calculate_hr_spo2 stAvg54 presentSamples priorR).res.heart_rate =
        raw / 2 :=
  C9_reported_range stAvg54 presentSamples priorR run_avg54.1 run_avg54.2.1

/-- C10: when the presence gate fails the call returns `true` having written
only `hr_valid := false` (and, when both channel averages exceed 1000, the
SpO2 fields): `heart_rate` always keeps the caller's prior contents on that
path, and when either average is at most 1000 so does `spo2`. -/
theorem C10_absent_frame (st : HrState) (samples : List max30102_fifo_sample)
    (r : max30102_result) (h0 : ¬ samples.length = 0)
    (hf : fingerPresentB samples = false) :
    (max30102_calculate_hr_spo2 st samples r).ret = true ∧
    (max30102_calculate_hr_spo2 st samples r).res.hr_valid = false ∧
    (max30102_calculate_hr_spo2 st samples r).res.heart_rate = r.heart_rate ∧
    (¬(1000 < batchRedAvg samples ∧ 1000 < batchIrAvg samples) →
      (max30102_calculate_hr_spo2 st samples r).res.spo2 = r.spo2 ∧
      (max30102_calculate_hr_spo2 st samples r).res.spo2_valid = false) := by
  rw [calc_absent_eq st samples r h0 hf]
  dsimp only
  refine ⟨rfl, ?_, ?_, ?_⟩
  · exact (spo2Absent_frame _ _ _ _ _).1
  · exact (spo2Absent_frame _ _ _ _ _).2
  · intro hn
    unfold spo2Absent
    rw [if_neg hn]
    exact ⟨rfl, rfl⟩

/-- C10 witness: a finger-absent all-zero batch leaves the caller's
`heart_rate` (123) and `spo2` (45) untouched while clearing both validity
flags and returning `true`. -/
theorem C10_witness :
    fingerPresentB darkSamples = false ∧
    (max30102_calculate_hr_spo2 stAvg100 darkSamples priorR).ret = true ∧
    (max30102_calculate_hr_spo2 stAvg100 darkSamples priorR).res.hr_valid = false ∧
    (max30102_calculate_hr_spo2 stAvg100 darkSamples priorR).res.heart_rate = 123 ∧
    (max30102_calculate_hr_spo2 stAvg100 darkSamples priorR).res.spo2 = 45 ∧
    (max30102_calculate_hr_spo2 stAvg100 darkSamples priorR).res.spo2_valid = false := by
  obtain ⟨a, b, c, d⟩ := C10_absent_frame stAvg100 darkSamples priorR
    (by decide) fingerPresent_darkSamples
  obtain ⟨e, f⟩ := d (by decide)
  exact ⟨fingerPresent_darkSamples, a, b, c.trans rfl, e.trans rfl, f⟩
